import Mathlib

/-!
Verification development for the docx-to-pdf repository (src/index.js).

The JavaScript pipeline is shallowly embedded: every external asynchronous
call (temp-dir creation, file writes, the mammoth DOCX-to-HTML conversion,
the puppeteer render, the final read of the produced PDF, cleanup) is
resolved by a `World` record that fixes the outcome of that call, and each
exported function is translated into a pure Lean function from its inputs
and the world to its result together with the ordered trace of I/O and
logging events it performs.  JavaScript `Buffer`s are lists of bytes
(`Fin 256`), thrown errors are the `Except.error` branch carrying the error
message, and `undefined` option fields are `Option.none`.
-/

namespace DocxToPdf

/-- A byte of a Node `Buffer`. -/
abbrev Byte := Fin 256

/-- A Node `Buffer`: a list of bytes. -/
abbrev Buffer := List Byte

/-! ### Base64, as produced by the base64 mode of
`Buffer.prototype.toString` (standard alphabet, `=` padding). -/

/-- The 64 characters of the standard base64 alphabet. -/
def base64Chars : List Char :=
  ['A', 'B', 'C', 'D', 'E', 'F', 'G', 'H', 'I', 'J', 'K', 'L', 'M',
   'N', 'O', 'P', 'Q', 'R', 'S', 'T', 'U', 'V', 'W', 'X', 'Y', 'Z',
   'a', 'b', 'c', 'd', 'e', 'f', 'g', 'h', 'i', 'j', 'k', 'l', 'm',
   'n', 'o', 'p', 'q', 'r', 's', 't', 'u', 'v', 'w', 'x', 'y', 'z',
   '0', '1', '2', '3', '4', '5', '6', '7', '8', '9', '+', '/']

/-- The alphabet character for a sextet value. -/
def encodeB64Char (n : Nat) : Char := base64Chars.getD n '?'

/-- Position of a character in a character list (list length if absent). -/
def charIndex : List Char → Char → Nat
  | [], _ => 0
  | c :: cs, d => if d = c then 0 else charIndex cs d + 1

/-- The sextet value of an alphabet character. -/
def decodeB64Char (c : Char) : Nat := charIndex base64Chars c

/-- Split a byte sequence into base64 sextet values (3 bytes to 4 sextets,
with the standard short-tail handling). -/
def sextets : List Nat → List Nat
  | a :: b :: c :: rest =>
      a / 4 :: ((a % 4) * 16 + b / 16) :: ((b % 16) * 4 + c / 64) :: c % 64
        :: sextets rest
  | [a, b] => [a / 4, (a % 4) * 16 + b / 16, (b % 16) * 4]
  | [a] => [a / 4, (a % 4) * 16]
  | [] => []

/-- Reassemble bytes from base64 sextet values (inverse of `sextets`). -/
def unsextets : List Nat → List Nat
  | s1 :: s2 :: s3 :: s4 :: rest =>
      (s1 * 4 + s2 / 16) :: ((s2 % 16) * 16 + s3 / 4) :: ((s3 % 4) * 64 + s4)
        :: unsextets rest
  | [s1, s2, s3] => [s1 * 4 + s2 / 16, (s2 % 16) * 16 + s3 / 4]
  | [s1, s2] => [s1 * 4 + s2 / 16]
  | [_] => []
  | [] => []

/-- The `=` padding appended for a byte count with the given remainder mod 3. -/
def base64Pad (len : Nat) : List Char :=
  if len % 3 = 1 then ['=', '=']
  else if len % 3 = 2 then ['=']
  else []

/-- Character list of the base64 encoding of a byte-value list. -/
def base64EncodeList (bytes : List Nat) : List Char :=
  (sextets bytes).map encodeB64Char ++ base64Pad bytes.length

/-- Base64 encoding of a `Buffer`, as the code computes it from
`pdfBuffer` in base64 mode. -/
def base64Encode (buf : Buffer) : String :=
  String.mk (base64EncodeList (buf.map Fin.val))

/-- Byte values recovered from a base64 character list (padding stripped). -/
def base64DecodeList (cs : List Char) : List Nat :=
  unsextets ((cs.filter (fun c => c != '=')).map decodeB64Char)

/-- Base64 decoding of a string back to a `Buffer`. -/
def base64Decode (s : String) : Buffer :=
  (base64DecodeList s.data).map (fun n => ⟨n % 256, Nat.mod_lt n (by norm_num)⟩)

theorem unsextets_sextets :
    ∀ l : List Nat, (∀ b ∈ l, b < 256) → unsextets (sextets l) = l
  | [], _ => by simp [sextets, unsextets]
  | [a], h => by
      have ha : a < 256 := h a (by simp)
      simp only [sextets, unsextets, List.cons.injEq, and_true]
      omega
  | [a, b], h => by
      have ha : a < 256 := h a (by simp)
      have hb : b < 256 := h b (by simp)
      simp only [sextets, unsextets, List.cons.injEq, and_true]
      constructor <;> omega
  | a :: b :: c :: d :: rest, h => by
      have ha : a < 256 := h a (by simp)
      have hb : b < 256 := h b (by simp)
      have hc : c < 256 := h c (by simp)
      have ih := unsextets_sextets (d :: rest) (fun x hx => h x (by simp at hx ⊢; tauto))
      simp only [sextets, unsextets, List.cons.injEq] at ih ⊢
      refine ⟨by omega, by omega, by omega, ih⟩
  | [a, b, c], h => by
      have ha : a < 256 := h a (by simp)
      have hb : b < 256 := h b (by simp)
      have hc : c < 256 := h c (by simp)
      simp only [sextets, unsextets, List.cons.injEq, and_true]
      refine ⟨by omega, by omega, by omega⟩

theorem sextets_lt_64 :
    ∀ l : List Nat, (∀ b ∈ l, b < 256) → ∀ s ∈ sextets l, s < 64
  | [], _ => by simp [sextets]
  | [a], h => by
      have ha : a < 256 := h a (by simp)
      simp only [sextets, List.mem_cons, List.not_mem_nil, or_false]
      rintro s (rfl | rfl) <;> omega
  | [a, b], h => by
      have ha : a < 256 := h a (by simp)
      have hb : b < 256 := h b (by simp)
      simp only [sextets, List.mem_cons, List.not_mem_nil, or_false]
      rintro s (rfl | rfl | rfl) <;> omega
  | a :: b :: c :: d :: rest, h => by
      have ha : a < 256 := h a (by simp)
      have hb : b < 256 := h b (by simp)
      have hc : c < 256 := h c (by simp)
      have ih := sextets_lt_64 (d :: rest) (fun x hx => h x (by simp at hx ⊢; tauto))
      simp only [sextets, List.mem_cons] at ih ⊢
      rintro s (rfl | rfl | rfl | rfl | hs)
      · omega
      · omega
      · omega
      · omega
      · exact ih s hs
  | [a, b, c], h => by
      have ha : a < 256 := h a (by simp)
      have hb : b < 256 := h b (by simp)
      have hc : c < 256 := h c (by simp)
      simp only [sextets, List.mem_cons, List.not_mem_nil, or_false]
      rintro s (rfl | rfl | rfl | rfl) <;> omega

theorem decodeB64Char_encodeB64Char :
    ∀ n, n < 64 → decodeB64Char (encodeB64Char n) = n := by decide

theorem encodeB64Char_ne_pad : ∀ n, encodeB64Char n ≠ '=' := by
  intro n
  rcases Nat.lt_or_ge n 64 with h | h
  · exact (by decide : ∀ m, m < 64 → encodeB64Char m ≠ '=') n h
  · have hlen : base64Chars.length ≤ n := le_trans (by decide) h
    unfold encodeB64Char
    rw [List.getD_eq_default _ _ hlen]
    decide

theorem base64Pad_all_pad : ∀ k, ∀ c ∈ base64Pad k, c = '=' := by
  intro k c hc
  unfold base64Pad at hc
  split at hc
  · simp at hc; tauto
  · split at hc
    · simp at hc; exact hc
    · simp at hc

theorem base64_filter_pad (l : List Nat) (k : Nat) :
    ((l.map encodeB64Char) ++ base64Pad k).filter (fun c => c != '=') =
      l.map encodeB64Char := by
  rw [List.filter_append]
  have h1 : (l.map encodeB64Char).filter (fun c => c != '=') = l.map encodeB64Char := by
    apply List.filter_eq_self.mpr
    intro a ha
    obtain ⟨n, _, rfl⟩ := List.mem_map.mp ha
    simpa using encodeB64Char_ne_pad n
  have h2 : (base64Pad k).filter (fun c => c != '=') = [] := by
    apply List.filter_eq_nil_iff.mpr
    intro a ha
    simp [base64Pad_all_pad k a ha]
  rw [h1, h2, List.append_nil]

theorem base64DecodeList_encodeList (bytes : List Nat)
    (h : ∀ b ∈ bytes, b < 256) :
    base64DecodeList (base64EncodeList bytes) = bytes := by
  unfold base64DecodeList base64EncodeList
  rw [base64_filter_pad, List.map_map]
  have hmap : (sextets bytes).map (decodeB64Char ∘ encodeB64Char) =
      (sextets bytes).map id := by
    apply List.map_congr_left
    intro s hs
    exact decodeB64Char_encodeB64Char s (sextets_lt_64 bytes h s hs)
  rw [hmap, List.map_id]
  exact unsextets_sextets bytes h

/-- Decoding the base64 string produced for a buffer recovers the buffer. -/
theorem base64Decode_base64Encode (buf : Buffer) :
    base64Decode (base64Encode buf) = buf := by
  unfold base64Decode base64Encode
  have hdata : (String.mk (base64EncodeList (buf.map Fin.val))).data =
      base64EncodeList (buf.map Fin.val) := rfl
  rw [hdata, base64DecodeList_encodeList (buf.map Fin.val)
    (by intro b hb; obtain ⟨x, _, rfl⟩ := List.mem_map.mp hb; exact x.isLt)]
  rw [List.map_map]
  have : ∀ b ∈ buf, ((fun n => (⟨n % 256, Nat.mod_lt n (by norm_num)⟩ : Byte)) ∘ Fin.val) b
      = id b := by
    intro b _
    simp only [Function.comp_apply, id_eq]
    exact Fin.ext (Nat.mod_eq_of_lt b.isLt)
  rw [List.map_congr_left this, List.map_id]

/-! ### String and path helpers mirroring the Node built-ins used by
src/index.js. -/

/-- JavaScript `a || b` on an optional string: the fallback is used when the
value is `undefined` (`none`) or the empty string (falsy). -/
def jsOr (a : Option String) (b : String) : String :=
  match a with
  | some s => if s = "" then b else s
  | none => b

/-- JavaScript `String.prototype.includes`: substring test. -/
def strContainsSub (s sub : String) : Bool :=
  s.data.tails.any (fun t => sub.data.isPrefixOf t)

/-- Model of `path.join` for a directory `a` without a trailing
separator. -/
def pathJoin (a b : String) : String := a ++ "/" ++ b

/-- Model of `path.basename`: the part of the path after the last
separator. -/
def pathBasename (p : String) : String :=
  String.mk ((p.data.reverse.takeWhile (fun c => c != '/')).reverse)

/-- Whether `s` ends with `t`. -/
def strEndsWith (s t : String) : Bool :=
  t.data.isSuffixOf s.data

/-- The lower-cased characters of `.docx`, the suffix matched by the
case-insensitive regular expression in src/index.js line 165. -/
def docxSuffix : List Char := ['.', 'd', 'o', 'c', 'x']

/-- Whether the filename matches the regular expression `\.docx$` with the
`i` flag: it ends with `.docx` up to ASCII case. -/
def hasDocxSuffixCI (name : String) : Bool :=
  docxSuffix.isSuffixOf (name.data.map Char.toLower)

/-- Model of the replace call on `originalFilename` at src/index.js line
165: replace a trailing `.docx` (matched case-insensitively by the regular
expression) by `.pdf`; leave any other name unchanged. -/
def replaceDocxSuffix (name : String) : String :=
  if hasDocxSuffixCI name then
    String.mk (name.data.take (name.data.length - 5)) ++ ".pdf"
  else name

/-! ### Data model -/

/-- A diagnostic message produced by mammoth; only its `message` text is
inspected by the code (`m.message.includes(...)`). -/
structure MammothMessage where
  message : String
  deriving DecidableEq

/-- The value returned by `mammoth.convertToHtml`: the HTML string and the
diagnostic messages. -/
structure MammothResult where
  value : String
  messages : List MammothMessage
  deriving DecidableEq

/-- The value returned by `mammoth.extractRawText`: the plain text and the
diagnostic messages. -/
structure RawTextResult where
  value : String
  messages : List MammothMessage
  deriving DecidableEq

/-- The legacy `options` parameter; `none` stands for an absent property, so
destructuring defaults apply. -/
structure Options where
  returnType : Option String := none
  outputDir : Option String := none
  deriving DecidableEq

/-- The `formatOptions.pageConfig.margin` object. -/
structure MarginConfig where
  top : Option String := none
  right : Option String := none
  bottom : Option String := none
  left : Option String := none
  deriving DecidableEq

/-- The `formatOptions.pageConfig` object. -/
structure PageConfig where
  format : Option String := none
  margin : Option MarginConfig := none
  deriving DecidableEq

/-- The `formatOptions` parameter of `convertDocxToPdf`. -/
structure FormatOptions where
  pageConfig : Option PageConfig := none
  preserveHeaders : Option Bool := none
  deriving DecidableEq

/-- Fully-defaulted margins (src/index.js lines 43-48). -/
structure FinalMargin where
  top : String
  right : String
  bottom : String
  left : String
  deriving DecidableEq

/-- The merged page configuration `finalPageConfig` (src/index.js
lines 41-49). -/
structure FinalPageConfig where
  format : String
  margin : FinalMargin
  deriving DecidableEq

/-- Computation of `finalPageConfig` from `formatOptions`, including the
JavaScript `||` falsiness on the empty string and the optional chaining on
`pageConfig.margin?.`. -/
def mkFinalPageConfig (formatOptions : FormatOptions) : FinalPageConfig :=
  let pc := formatOptions.pageConfig.getD {}
  { format := jsOr pc.format "A4"
    margin :=
      { top := jsOr (pc.margin.bind MarginConfig.top) "1in"
        right := jsOr (pc.margin.bind MarginConfig.right) "1in"
        bottom := jsOr (pc.margin.bind MarginConfig.bottom) "1in"
        left := jsOr (pc.margin.bind MarginConfig.left) "1in" } }

/-- The object returned by `convertDocxToPdf`: at most one of the `buffer`
and `base64` representations is present, next to the filename. -/
structure ConvResult where
  buffer : Option Buffer := none
  base64 : Option String := none
  filename : String
  deriving DecidableEq

/-- The metadata object returned by `extractDocumentMetadata`. -/
structure Metadata where
  suggestedFormat : String
  contentLength : Nat
  hasHeaders : Bool
  hasFooters : Bool
  messages : List MammothMessage
  deriving DecidableEq

/-- Observable I/O and logging events of one call, in program order.  An
event is recorded when the corresponding external operation succeeds;
`logWarn` / `logError` record the `console.warn` / `console.error` calls. -/
inductive Event where
  | mkdtemp (dir : String)
  | writeFile (p : String)
  | mammothConvertToHtml (p : String)
  | mammothExtractRawText (p : String)
  | logMessages
  | browserLaunch
  | pageGoto (p : String)
  | pageEvaluate
  | pagePdf (p : String) (format : String) (marginTop : String) (marginBottom : String)
  | browserClose
  | rmDir (dir : String)
  | readFile (p : String)
  | logWarn
  | logError
  deriving DecidableEq

/-- Outcomes of the external calls made during one `convertDocxToPdf` call:
each field resolves the corresponding awaited operation, either with its
value or with the message of the error it throws. -/
structure ConvWorld where
  tempDir : Except String String
  writeDocx : Except String Unit
  mammoth : Except String MammothResult
  writeHtml : Except String Unit
  launch : Except String Unit
  pageGoto : Except String Unit
  headerHeight : Except String Nat
  footerHeight : Except String Nat
  pagePdf : Except String Unit
  browserClose : Except String Unit
  rmTempDir : Except String Unit
  readPdf : Except String Buffer

/-- Outcomes of the external calls made during one
`extractDocumentMetadata` call. -/
structure MetaWorld where
  tempDir : Except String String
  write : Except String Unit
  extractRawText : Except String RawTextResult

/-! ### convertDocxToPdf (src/index.js lines 21-256) -/

/-- The body of the `try` block of `convertDocxToPdf` (src/index.js
lines 51-251): the linear pipeline, ending in the `returnType` dispatch.
An error value is the message of the first exception thrown. -/
def convertBody (_fileBuffer : Buffer) (originalFilename : String)
    (options : Options) (formatOptions : FormatOptions) (w : ConvWorld) :
    Except String ConvResult × List Event :=
  let returnType := options.returnType.getD "buffer"
  let outputDir := options.outputDir.getD "/tmp"
  let preserveHeaders := formatOptions.preserveHeaders.getD true
  let finalPageConfig := mkFinalPageConfig formatOptions
  match w.tempDir with
  | .error e => (.error e, [])
  | .ok tempDir =>
  let tr1 := [Event.mkdtemp tempDir]
  let tempFilePath := pathJoin tempDir "input.docx"
  match w.writeDocx with
  | .error e => (.error e, tr1)
  | .ok _ =>
  let tr2 := tr1 ++ [Event.writeFile tempFilePath]
  match w.mammoth with
  | .error e => (.error e, tr2)
  | .ok mres =>
  let tr3 := tr2 ++ [Event.mammothConvertToHtml tempFilePath] ++
    (if mres.messages.length > 0 then [Event.logMessages] else [])
  let tempHtmlPath := pathJoin tempDir "output.html"
  match w.writeHtml with
  | .error e => (.error e, tr3)
  | .ok _ =>
  let tr4 := tr3 ++ [Event.writeFile tempHtmlPath]
  let outputPath := pathJoin outputDir (replaceDocxSuffix originalFilename)
  match w.launch with
  | .error e => (.error e, tr4)
  | .ok _ =>
  let tr5 := tr4 ++ [Event.browserLaunch]
  match w.pageGoto with
  | .error e => (.error e, tr5)
  | .ok _ =>
  let tr6 := tr5 ++ [Event.pageGoto tempHtmlPath]
  match (if preserveHeaders then w.headerHeight else .ok 0) with
  | .error e => (.error e, tr6)
  | .ok headerHeight =>
  let tr7 := tr6 ++ (if preserveHeaders then [Event.pageEvaluate] else [])
  match (if preserveHeaders then w.footerHeight else .ok 0) with
  | .error e => (.error e, tr7)
  | .ok footerHeight =>
  let tr8 := tr7 ++ (if preserveHeaders then [Event.pageEvaluate] else [])
  let pdfMarginTop :=
    if preserveHeaders then toString (headerHeight + 36) ++ "px"
    else finalPageConfig.margin.top
  let pdfMarginBottom :=
    if preserveHeaders then toString (footerHeight + 36) ++ "px"
    else finalPageConfig.margin.bottom
  match w.pagePdf with
  | .error e => (.error e, tr8)
  | .ok _ =>
  let tr9 := tr8 ++
    [Event.pagePdf outputPath finalPageConfig.format pdfMarginTop pdfMarginBottom]
  match w.browserClose with
  | .error e => (.error e, tr9)
  | .ok _ =>
  let tr10 := tr9 ++ [Event.browserClose]
  let tr11 := tr10 ++
    (match w.rmTempDir with
     | .ok _ => [Event.rmDir tempDir]
     | .error _ => [Event.logWarn])
  match w.readPdf with
  | .error e => (.error e, tr11)
  | .ok pdfBuffer =>
  let tr12 := tr11 ++ [Event.readFile outputPath]
  let b64 : Option String :=
    if returnType = "base64" then some (base64Encode pdfBuffer) else none
  if returnType = "buffer" then
    (.ok { buffer := some pdfBuffer, base64 := none,
           filename := pathBasename outputPath }, tr12)
  else if returnType = "file" then
    (.ok { buffer := none, base64 := none, filename := outputPath }, tr12)
  else if returnType = "base64" then
    (.ok { buffer := none, base64 := b64,
           filename := pathBasename outputPath }, tr12)
  else
    (.error ("Invalid returnType specified: " ++ returnType), tr12)

/-- Model of `convertDocxToPdf` (src/index.js lines 21-256): the `try` body plus the
`catch` handler, which logs the error and rethrows it wrapped in the
generic conversion-failure message. -/
def convertDocxToPdf (fileBuffer : Buffer) (originalFilename : String)
    (options : Options) (formatOptions : FormatOptions) (w : ConvWorld) :
    Except String ConvResult × List Event :=
  match convertBody fileBuffer originalFilename options formatOptions w with
  | (.ok r, tr) => (.ok r, tr)
  | (.error e, tr) =>
      (.error ("Failed to convert DOCX document to PDF: " ++ e),
       tr ++ [Event.logError])

/-! ### extractDocumentMetadata (src/index.js lines 263-300) -/

/-- The format heuristic of src/index.js lines 275-281: start from `A4`,
use `A4` above 3000 characters and `Letter` above 500. -/
def suggestedFormatOf (contentLength : Nat) : String :=
  if contentLength > 3000 then "A4"
  else if contentLength > 500 then "Letter"
  else "A4"

/-- The body of the `try` block of `extractDocumentMetadata` (src/index.js
lines 264-289). -/
def metaBody (_fileBuffer : Buffer) (w : MetaWorld) :
    Except String Metadata × List Event :=
  match w.tempDir with
  | .error e => (.error e, [])
  | .ok tempDir =>
  let tr1 := [Event.mkdtemp tempDir]
  let tempFilePath := pathJoin tempDir "temp.docx"
  match w.write with
  | .error e => (.error e, tr1)
  | .ok _ =>
  let tr2 := tr1 ++ [Event.writeFile tempFilePath]
  match w.extractRawText with
  | .error e => (.error e, tr2)
  | .ok res =>
  let tr3 := tr2 ++ [Event.mammothExtractRawText tempFilePath]
  let contentLength := res.value.length
  (.ok { suggestedFormat := suggestedFormatOf contentLength
         contentLength := contentLength
         hasHeaders := res.messages.any (fun m => strContainsSub m.message "header")
         hasFooters := res.messages.any (fun m => strContainsSub m.message "footer")
         messages := res.messages }, tr3)

/-- The default guess returned by the `catch` handler of
`extractDocumentMetadata` (src/index.js lines 292-298). -/
def defaultMetadata : Metadata :=
  { suggestedFormat := "A4", contentLength := 0,
    hasHeaders := false, hasFooters := false, messages := [] }

/-- Model of `extractDocumentMetadata` (src/index.js lines 263-300): any failure of
the body is caught, logged, and replaced by the default guess, so the
function always returns a metadata object. -/
def extractDocumentMetadata (fileBuffer : Buffer) (w : MetaWorld) :
    Metadata × List Event :=
  match metaBody fileBuffer w with
  | (.ok m, tr) => (m, tr)
  | (.error _, tr) => (defaultMetadata, tr ++ [Event.logError])

/-! ### smartConvertDocxToPdf (src/index.js lines 309-324) -/

/-- Model of `smartConvertDocxToPdf`: extract metadata, build `formatOptions` from
the guess, and convert with the legacy options untouched. -/
def smartConvertDocxToPdf (fileBuffer : Buffer) (originalFilename : String)
    (options : Options) (mw : MetaWorld) (cw : ConvWorld) :
    Except String ConvResult × List Event :=
  let md := extractDocumentMetadata fileBuffer mw
  let metadata := md.fst
  let formatOptions : FormatOptions :=
    { pageConfig := some
        { format := some metadata.suggestedFormat
          margin := some
            { top := some "1in", right := some "1in",
              bottom := some "1in", left := some "1in" } }
      preserveHeaders := some (metadata.hasHeaders || metadata.hasFooters) }
  let cv := convertDocxToPdf fileBuffer originalFilename options formatOptions cw
  (cv.fst, md.snd ++ cv.snd)

/-! ### Helper lemmas about the path and suffix functions -/

theorem takeWhile_append_of_all (p : Char → Bool) (xs ys : List Char)
    (h : ∀ x ∈ xs, p x = true) (y : Char) (hy : p y = false) :
    (xs ++ y :: ys).takeWhile p = xs := by
  induction xs with
  | nil => simp [List.takeWhile, hy]
  | cons a as ih =>
      simp only [List.cons_append, List.takeWhile]
      rw [h a (by simp)]
      simp only [List.cons.injEq, true_and]
      exact ih (fun x hx => h x (by simp [hx]))

theorem pathBasename_pathJoin (d g : String) (hg : '/' ∉ g.data) :
    pathBasename (pathJoin d g) = g := by
  unfold pathBasename pathJoin
  have hslash : ("/" : String).data = ['/'] := by decide
  have hdata : (d ++ "/" ++ g).data = (d.data ++ ['/']) ++ g.data := by
    rw [String.data_append, String.data_append, hslash]
  rw [hdata]
  rw [List.reverse_append]
  have hall : ∀ x ∈ g.data.reverse, (x != '/') = true := by
    intro x hx
    have : x ∈ g.data := List.mem_reverse.mp hx
    simp only [bne_iff_ne, ne_eq]
    intro heq
    exact hg (heq ▸ this)
  have hsplit : (d.data ++ ['/']).reverse = '/' :: d.data.reverse := by simp
  rw [hsplit, takeWhile_append_of_all _ _ _ hall '/' (by simp)]
  rw [List.reverse_reverse]

theorem strEndsWith_append (s t : String) : strEndsWith (s ++ t) t = true := by
  unfold strEndsWith
  rw [String.data_append]
  exact List.isSuffixOf_iff_suffix.mpr ⟨s.data, rfl⟩

theorem hasDocxSuffixCI_iff (name : String) :
    hasDocxSuffixCI name = true ↔
      ∃ stem, name.data.map Char.toLower = stem ++ docxSuffix := by
  unfold hasDocxSuffixCI
  rw [List.isSuffixOf_iff_suffix]
  constructor
  · rintro ⟨stem, hstem⟩; exact ⟨stem, hstem.symm⟩
  · rintro ⟨stem, hstem⟩; exact ⟨stem, hstem.symm⟩

theorem replaceDocxSuffix_of_not_docx (name : String)
    (h : ¬ ∃ stem, name.data.map Char.toLower = stem ++ docxSuffix) :
    replaceDocxSuffix name = name := by
  unfold replaceDocxSuffix
  rw [if_neg]
  intro hc
  exact h ((hasDocxSuffixCI_iff name).mp hc)

theorem replaceDocxSuffix_of_docx (name : String) (stem : List Char)
    (h : name.data.map Char.toLower = stem ++ docxSuffix) :
    replaceDocxSuffix name = String.mk (name.data.take stem.length) ++ ".pdf" := by
  have hlen : name.data.length = stem.length + 5 := by
    have := congrArg List.length h
    simpa [List.length_map, docxSuffix] using this
  unfold replaceDocxSuffix
  rw [if_pos ((hasDocxSuffixCI_iff name).mpr ⟨stem, h⟩)]
  have hsub : name.data.length - 5 = stem.length := by omega
  rw [hsub]

theorem replaceDocxSuffix_no_slash (name : String) (h : '/' ∉ name.data) :
    '/' ∉ (replaceDocxSuffix name).data := by
  unfold replaceDocxSuffix
  split
  · rw [String.data_append]
    intro hc
    rcases List.mem_append.mp hc with hc1 | hc2
    · exact h ((List.take_sublist _ _).mem (by simpa using hc1))
    · simp [show (".pdf" : String).data = ['.', 'p', 'd', 'f'] from rfl] at hc2
  · exact h

/-! ### Concrete worlds used as witnesses -/

/-- A sample DOCX buffer (the ZIP local-file-header magic). -/
def sampleBuf : Buffer := [80, 75, 3, 4]

/-- The bytes of the rendered PDF in the sample worlds (`%PDF`). -/
def pdfSample : Buffer := [37, 80, 68, 70]

/-- A world in which every external operation of `convertDocxToPdf`
succeeds. -/
def okConvWorld : ConvWorld :=
  { tempDir := .ok "/tmp/doc-convert-abc123"
    writeDocx := .ok ()
    mammoth := .ok { value := "<p>hi</p>", messages := [] }
    writeHtml := .ok ()
    launch := .ok ()
    pageGoto := .ok ()
    headerHeight := .ok 10
    footerHeight := .ok 12
    pagePdf := .ok ()
    browserClose := .ok ()
    rmTempDir := .ok ()
    readPdf := .ok pdfSample }

/-- A world in which every external operation of `extractDocumentMetadata`
succeeds. -/
def okMetaWorld : MetaWorld :=
  { tempDir := .ok "/tmp/doc-meta-x1"
    write := .ok ()
    extractRawText := .ok { value := "hello world", messages := [] } }

/-- A world in which the raw-text extraction of `extractDocumentMetadata`
fails, as it does on a buffer that is not a DOCX archive. -/
def failMetaWorld : MetaWorld :=
  { tempDir := .ok "/tmp/doc-meta-x2"
    write := .ok ()
    extractRawText := .error "Could not find the body element: are you sure this is a docx file?" }

/-! ### The claims -/

/-- Claim C3: for every extracted plain-text length `L`, the suggested page
format is `A4` for `L ≤ 500`, `Letter` for `500 < L ≤ 3000`, and `A4` for
`L > 3000`; and `extractDocumentMetadata` applies exactly this selection to
the length of the extracted raw text. -/
theorem claim_C3 :
    (∀ L : Nat, suggestedFormatOf L =
      (if L ≤ 500 then "A4" else if L ≤ 3000 then "Letter" else "A4")) ∧
    (∀ (buf : Buffer) (w : MetaWorld) (td : String) (res : RawTextResult),
      w.tempDir = .ok td → w.write = .ok () → w.extractRawText = .ok res →
      (extractDocumentMetadata buf w).fst.suggestedFormat =
        suggestedFormatOf res.value.length) := by
  constructor
  · intro L
    by_cases h1 : L ≤ 500
    · rw [if_pos h1]
      unfold suggestedFormatOf
      rw [if_neg (by omega), if_neg (by omega)]
    · by_cases h2 : L ≤ 3000
      · rw [if_neg h1, if_pos h2]
        unfold suggestedFormatOf
        rw [if_neg (by omega), if_pos (by omega)]
      · rw [if_neg h1, if_neg h2]
        unfold suggestedFormatOf
        rw [if_pos (by omega)]
  · intro buf w td res h1 h2 h3
    simp [extractDocumentMetadata, metaBody, h1, h2, h3]

/-- Witness for C3 at concrete lengths and a concrete world. -/
theorem claim_C3_witness :
    suggestedFormatOf 400 = "A4" ∧ suggestedFormatOf 501 = "Letter" ∧
    suggestedFormatOf 3001 = "A4" ∧
    (extractDocumentMetadata sampleBuf okMetaWorld).fst.suggestedFormat =
      suggestedFormatOf 11 :=
  ⟨(claim_C3.1 400).trans (by decide),
   (claim_C3.1 501).trans (by decide),
   (claim_C3.1 3001).trans (by decide),
   claim_C3.2 sampleBuf okMetaWorld "/tmp/doc-meta-x1"
     { value := "hello world", messages := [] } rfl rfl rfl⟩

/-- Claim C4: `extractDocumentMetadata` never propagates a failure (its
model returns a plain `Metadata`, never an error); whenever its body fails
internally it returns exactly the default guess
`{suggestedFormat := "A4", contentLength := 0, hasHeaders := false,
hasFooters := false, messages := []}`. -/
theorem claim_C4 :
    ∀ (buf : Buffer) (w : MetaWorld) (e : String),
      (metaBody buf w).fst = .error e →
      (extractDocumentMetadata buf w).fst = defaultMetadata ∧
      defaultMetadata =
        { suggestedFormat := "A4", contentLength := 0, hasHeaders := false,
          hasFooters := false, messages := [] } := by
  intro buf w e h
  refine ⟨?_, rfl⟩
  unfold extractDocumentMetadata
  rcases hmb : metaBody buf w with ⟨r, tr⟩
  rw [hmb] at h
  simp only at h
  rw [h]

/-- Witness for C4: a world whose raw-text extraction fails (a non-DOCX
buffer) yields the default guess. -/
theorem claim_C4_witness :
    (extractDocumentMetadata sampleBuf failMetaWorld).fst = defaultMetadata ∧
    defaultMetadata =
      { suggestedFormat := "A4", contentLength := 0, hasHeaders := false,
        hasFooters := false, messages := [] } :=
  claim_C4 sampleBuf failMetaWorld
    "Could not find the body element: are you sure this is a docx file?" rfl

/-- Claim C9: `smartConvertDocxToPdf` returns the same result as
`convertDocxToPdf` on the same buffer, filename and options, with
`formatOptions` derived from the metadata guess for that buffer: the
guessed format, one-inch margins on every side, and header preservation
exactly when headers or footers were flagged. -/
theorem claim_C9 :
    ∀ (buf : Buffer) (fn : String) (opts : Options) (mw : MetaWorld)
      (cw : ConvWorld),
      (smartConvertDocxToPdf buf fn opts mw cw).fst =
        (convertDocxToPdf buf fn opts
          { pageConfig := some
              { format := some ((extractDocumentMetadata buf mw).fst.suggestedFormat)
                margin := some
                  { top := some "1in", right := some "1in",
                    bottom := some "1in", left := some "1in" } }
            preserveHeaders :=
              some ((extractDocumentMetadata buf mw).fst.hasHeaders ||
                (extractDocumentMetadata buf mw).fst.hasFooters) } cw).fst := by
  intro buf fn opts mw cw
  rfl

/-- Claim C7: for every successful call to `convertDocxToPdf`, exactly one
output representation is populated, determined solely by the requested
`returnType`: `buffer` yields the byte buffer (and no base64), `file`
yields the filename only, `base64` yields the base64 string (and no byte
buffer); any other `returnType` never yields a successful result. -/
theorem claim_C7 :
    ∀ (buf : Buffer) (fn : String) (rtOpt od : Option String)
      (fo : FormatOptions) (w : ConvWorld) (td : String)
      (mres : MammothResult) (hh fh : Nat) (bs : Buffer),
      w.tempDir = .ok td → w.writeDocx = .ok () → w.mammoth = .ok mres →
      w.writeHtml = .ok () → w.launch = .ok () → w.pageGoto = .ok () →
      w.headerHeight = .ok hh → w.footerHeight = .ok fh →
      w.pagePdf = .ok () → w.browserClose = .ok () → w.readPdf = .ok bs →
      ((rtOpt.getD "buffer" = "buffer" →
        ∃ r, (convertDocxToPdf buf fn { returnType := rtOpt, outputDir := od }
            fo w).fst = .ok r ∧ r.buffer = some bs ∧ r.base64 = none) ∧
       (rtOpt.getD "buffer" = "file" →
        ∃ r, (convertDocxToPdf buf fn { returnType := rtOpt, outputDir := od }
            fo w).fst = .ok r ∧ r.buffer = none ∧ r.base64 = none) ∧
       (rtOpt.getD "buffer" = "base64" →
        ∃ r, (convertDocxToPdf buf fn { returnType := rtOpt, outputDir := od }
            fo w).fst = .ok r ∧ r.buffer = none ∧ r.base64.isSome = true) ∧
       (rtOpt.getD "buffer" ≠ "buffer" → rtOpt.getD "buffer" ≠ "file" →
        rtOpt.getD "buffer" ≠ "base64" →
        ∀ r, (convertDocxToPdf buf fn { returnType := rtOpt, outputDir := od }
            fo w).fst ≠ .ok r)) := by
  intro buf fn rtOpt od fo w td mres hh fh bs h1 h2 h3 h4 h5 h6 h7 h8 h9 h10 h11
  refine ⟨?_, ?_, ?_, ?_⟩
  · intro hrt
    have heq : (convertDocxToPdf buf fn { returnType := rtOpt, outputDir := od }
        fo w).fst = .ok { buffer := some bs, base64 := none, filename := pathBasename (pathJoin (od.getD "/tmp") (replaceDocxSuffix fn)) } := by
      cases hph : fo.preserveHeaders.getD true <;>
      cases hrm : w.rmTempDir <;>
      simp [convertDocxToPdf, convertBody, h1, h2, h3, h4, h5, h6, h7, h8, h9,
        h10, h11, hrt, hph, hrm]
    exact ⟨_, heq, rfl, rfl⟩
  · intro hrt
    have heq : (convertDocxToPdf buf fn { returnType := rtOpt, outputDir := od }
        fo w).fst = .ok { buffer := none, base64 := none, filename := pathJoin (od.getD "/tmp") (replaceDocxSuffix fn) } := by
      cases hph : fo.preserveHeaders.getD true <;>
      cases hrm : w.rmTempDir <;>
      simp [convertDocxToPdf, convertBody, h1, h2, h3, h4, h5, h6, h7, h8, h9,
        h10, h11, hrt, hph, hrm]
    exact ⟨_, heq, rfl, rfl⟩
  · intro hrt
    have heq : (convertDocxToPdf buf fn { returnType := rtOpt, outputDir := od }
        fo w).fst = .ok { buffer := none, base64 := some (base64Encode bs), filename := pathBasename (pathJoin (od.getD "/tmp") (replaceDocxSuffix fn)) } := by
      cases hph : fo.preserveHeaders.getD true <;>
      cases hrm : w.rmTempDir <;>
      simp [convertDocxToPdf, convertBody, h1, h2, h3, h4, h5, h6, h7, h8, h9,
        h10, h11, hrt, hph, hrm]
    exact ⟨_, heq, rfl, rfl⟩
  · intro hnb hnf hn64 r
    cases hph : fo.preserveHeaders.getD true <;>
    cases hrm : w.rmTempDir <;>
    simp [convertDocxToPdf, convertBody, h1, h2, h3, h4, h5, h6, h7, h8, h9,
      h10, h11, hnb, hnf, hn64, hph, hrm]

/-- Witness for C7 at a fully successful concrete world in each mode. -/
theorem claim_C7_witness :
    (∃ r, (convertDocxToPdf sampleBuf "sample.docx"
        { returnType := some "buffer", outputDir := some "/out" } {}
        okConvWorld).fst = .ok r ∧ r.buffer = some pdfSample ∧
        r.base64 = none) ∧
    (∃ r, (convertDocxToPdf sampleBuf "sample.docx"
        { returnType := some "file", outputDir := some "/out" } {}
        okConvWorld).fst = .ok r ∧ r.buffer = none ∧ r.base64 = none) ∧
    (∃ r, (convertDocxToPdf sampleBuf "sample.docx"
        { returnType := some "base64", outputDir := some "/out" } {}
        okConvWorld).fst = .ok r ∧ r.buffer = none ∧
        r.base64.isSome = true) ∧
    (∀ r, (convertDocxToPdf sampleBuf "sample.docx"
        { returnType := some "xyz", outputDir := some "/out" } {}
        okConvWorld).fst ≠ .ok r) :=
  ⟨(claim_C7 sampleBuf "sample.docx" (some "buffer") (some "/out") {}
      okConvWorld "/tmp/doc-convert-abc123" { value := "<p>hi</p>", messages := [] }
      10 12 pdfSample rfl rfl rfl rfl rfl rfl rfl rfl rfl rfl rfl).1 rfl,
   (claim_C7 sampleBuf "sample.docx" (some "file") (some "/out") {}
      okConvWorld "/tmp/doc-convert-abc123" { value := "<p>hi</p>", messages := [] }
      10 12 pdfSample rfl rfl rfl rfl rfl rfl rfl rfl rfl rfl rfl).2.1 rfl,
   (claim_C7 sampleBuf "sample.docx" (some "base64") (some "/out") {}
      okConvWorld "/tmp/doc-convert-abc123" { value := "<p>hi</p>", messages := [] }
      10 12 pdfSample rfl rfl rfl rfl rfl rfl rfl rfl rfl rfl rfl).2.2.1 rfl,
   (claim_C7 sampleBuf "sample.docx" (some "xyz") (some "/out") {}
      okConvWorld "/tmp/doc-convert-abc123" { value := "<p>hi</p>", messages := [] }
      10 12 pdfSample rfl rfl rfl rfl rfl rfl rfl rfl rfl rfl rfl).2.2.2
     (by decide) (by decide) (by decide)⟩

/-- Claim C5: when conversion succeeds, base64-decoding the string returned
in `base64` mode yields exactly the bytes returned in `buffer` mode on the
same input, options and world. -/
theorem claim_C5 :
    ∀ (buf : Buffer) (fn : String) (od : Option String)
      (fo : FormatOptions) (w : ConvWorld) (td : String)
      (mres : MammothResult) (hh fh : Nat) (bs : Buffer),
      w.tempDir = .ok td → w.writeDocx = .ok () → w.mammoth = .ok mres →
      w.writeHtml = .ok () → w.launch = .ok () → w.pageGoto = .ok () →
      w.headerHeight = .ok hh → w.footerHeight = .ok fh →
      w.pagePdf = .ok () → w.browserClose = .ok () → w.readPdf = .ok bs →
      (convertDocxToPdf buf fn { returnType := some "base64", outputDir := od }
          fo w).fst =
        .ok { buffer := none, base64 := some (base64Encode bs),
              filename := pathBasename (pathJoin (od.getD "/tmp") (replaceDocxSuffix fn)) } ∧
      (convertDocxToPdf buf fn { returnType := some "buffer", outputDir := od }
          fo w).fst =
        .ok { buffer := some bs, base64 := none,
              filename := pathBasename (pathJoin (od.getD "/tmp") (replaceDocxSuffix fn)) } ∧
      base64Decode (base64Encode bs) = bs := by
  intro buf fn od fo w td mres hh fh bs h1 h2 h3 h4 h5 h6 h7 h8 h9 h10 h11
  refine ⟨?_, ?_, base64Decode_base64Encode bs⟩
  · cases hph : fo.preserveHeaders.getD true <;>
    cases hrm : w.rmTempDir <;>
    simp [convertDocxToPdf, convertBody, h1, h2, h3, h4, h5, h6, h7, h8, h9,
      h10, h11, hph, hrm]
  · cases hph : fo.preserveHeaders.getD true <;>
    cases hrm : w.rmTempDir <;>
    simp [convertDocxToPdf, convertBody, h1, h2, h3, h4, h5, h6, h7, h8, h9,
      h10, h11, hph, hrm]

/-- Witness for C5 at a fully successful concrete world. -/
theorem claim_C5_witness :
    (convertDocxToPdf sampleBuf "sample.docx"
        { returnType := some "base64", outputDir := some "/out" } {}
        okConvWorld).fst =
      .ok { buffer := none, base64 := some (base64Encode pdfSample),
            filename := pathBasename (pathJoin "/out" (replaceDocxSuffix "sample.docx")) } ∧
    (convertDocxToPdf sampleBuf "sample.docx"
        { returnType := some "buffer", outputDir := some "/out" } {}
        okConvWorld).fst =
      .ok { buffer := some pdfSample, base64 := none,
            filename := pathBasename (pathJoin "/out" (replaceDocxSuffix "sample.docx")) } ∧
    base64Decode (base64Encode pdfSample) = pdfSample :=
  claim_C5 sampleBuf "sample.docx" (some "/out") {} okConvWorld
    "/tmp/doc-convert-abc123" { value := "<p>hi</p>", messages := [] }
    10 12 pdfSample rfl rfl rfl rfl rfl rfl rfl rfl rfl rfl rfl

/-- Proposition abbreviating how a failure with message `m` inside the
`try` body of `convertDocxToPdf` is observed by the caller: the call
yields the generic conversion-failure message wrapping `m`, the failure
was logged, and no result object is produced. -/
def failsWrapped (buf : Buffer) (fn : String) (opts : Options)
    (fo : FormatOptions) (w : ConvWorld) (m : String) : Prop :=
  (convertDocxToPdf buf fn opts fo w).fst =
    .error ("Failed to convert DOCX document to PDF: " ++ m) ∧
  Event.logError ∈ (convertDocxToPdf buf fn opts fo w).snd ∧
  ∀ r, (convertDocxToPdf buf fn opts fo w).fst ≠ .ok r

/-- Claim C6: whenever any failure occurs inside the extraction or render
stages — the mammoth conversion, the browser launch, the page navigation,
either header/footer height evaluation, the PDF generation, or the
browser close — it is caught, logged, and re-thrown wrapped in the
generic conversion-failure message carrying the original message, and no
partial result object is ever returned.  The first conjunct states this
for every failure of the `try` body whatever its stage; the remaining
conjuncts instantiate it at each extraction- and render-stage failure
point. -/
theorem claim_C6 :
    ∀ (buf : Buffer) (fn : String) (opts : Options) (fo : FormatOptions)
      (w : ConvWorld) (m : String) (td : String) (mres : MammothResult)
      (hh : Nat),
      ((convertBody buf fn opts fo w).fst = .error m →
        failsWrapped buf fn opts fo w m) ∧
      (w.tempDir = .ok td → w.writeDocx = .ok () → w.mammoth = .error m →
        failsWrapped buf fn opts fo w m) ∧
      (w.tempDir = .ok td → w.writeDocx = .ok () → w.mammoth = .ok mres →
        w.writeHtml = .ok () → w.launch = .error m →
        failsWrapped buf fn opts fo w m) ∧
      (w.tempDir = .ok td → w.writeDocx = .ok () → w.mammoth = .ok mres →
        w.writeHtml = .ok () → w.launch = .ok () → w.pageGoto = .error m →
        failsWrapped buf fn opts fo w m) ∧
      (w.tempDir = .ok td → w.writeDocx = .ok () → w.mammoth = .ok mres →
        w.writeHtml = .ok () → w.launch = .ok () → w.pageGoto = .ok () →
        fo.preserveHeaders.getD true = true → w.headerHeight = .error m →
        failsWrapped buf fn opts fo w m) ∧
      (w.tempDir = .ok td → w.writeDocx = .ok () → w.mammoth = .ok mres →
        w.writeHtml = .ok () → w.launch = .ok () → w.pageGoto = .ok () →
        fo.preserveHeaders.getD true = true → w.headerHeight = .ok hh →
        w.footerHeight = .error m → failsWrapped buf fn opts fo w m) ∧
      (∀ fh : Nat, w.tempDir = .ok td → w.writeDocx = .ok () →
        w.mammoth = .ok mres → w.writeHtml = .ok () → w.launch = .ok () →
        w.pageGoto = .ok () → w.headerHeight = .ok hh →
        w.footerHeight = .ok fh → w.pagePdf = .error m →
        failsWrapped buf fn opts fo w m) ∧
      (∀ fh : Nat, w.tempDir = .ok td → w.writeDocx = .ok () →
        w.mammoth = .ok mres → w.writeHtml = .ok () → w.launch = .ok () →
        w.pageGoto = .ok () → w.headerHeight = .ok hh →
        w.footerHeight = .ok fh → w.pagePdf = .ok () →
        w.browserClose = .error m → failsWrapped buf fn opts fo w m) := by
  intro buf fn opts fo w m td mres hh
  have hgen : (convertBody buf fn opts fo w).fst = .error m →
      failsWrapped buf fn opts fo w m := by
    intro hb
    unfold failsWrapped convertDocxToPdf
    rcases hcb : convertBody buf fn opts fo w with ⟨r, tr⟩
    rw [hcb] at hb
    simp only at hb
    subst hb
    simp
  refine ⟨hgen, ?_, ?_, ?_, ?_, ?_, ?_, ?_⟩
  · intro e1 e2 hm
    exact hgen (by simp [convertBody, e1, e2, hm])
  · intro e1 e2 e3 e4 hm
    exact hgen (by simp [convertBody, e1, e2, e3, e4, hm])
  · intro e1 e2 e3 e4 e5 hm
    exact hgen (by simp [convertBody, e1, e2, e3, e4, e5, hm])
  · intro e1 e2 e3 e4 e5 e6 hph hm
    exact hgen (by simp [convertBody, e1, e2, e3, e4, e5, e6, hph, hm])
  · intro e1 e2 e3 e4 e5 e6 hph e7 hm
    exact hgen (by simp [convertBody, e1, e2, e3, e4, e5, e6, hph, e7, hm])
  · intro fh e1 e2 e3 e4 e5 e6 e7 e8 hm
    exact hgen (by
      cases hph : fo.preserveHeaders.getD true <;>
      simp [convertBody, e1, e2, e3, e4, e5, e6, e7, e8, hph, hm])
  · intro fh e1 e2 e3 e4 e5 e6 e7 e8 e9 hm
    exact hgen (by
      cases hph : fo.preserveHeaders.getD true <;>
      simp [convertBody, e1, e2, e3, e4, e5, e6, e7, e8, e9, hph, hm])

/-- A world in which the mammoth conversion fails. -/
def mamFailConvWorld : ConvWorld :=
  { okConvWorld with mammoth := .error "bad docx" }

/-- A world in which the browser launch fails. -/
def launchFailConvWorld : ConvWorld :=
  { okConvWorld with launch := .error "spawn failure" }

/-- A world in which the page navigation fails. -/
def gotoFailConvWorld : ConvWorld :=
  { okConvWorld with pageGoto := .error "navigation failed" }

/-- A world in which the header-height evaluation fails. -/
def headerFailConvWorld : ConvWorld :=
  { okConvWorld with headerHeight := .error "evaluate failed" }

/-- A world in which the footer-height evaluation fails. -/
def footerFailConvWorld : ConvWorld :=
  { okConvWorld with footerHeight := .error "evaluate failed" }

/-- A world in which the PDF generation fails. -/
def renderFailConvWorld : ConvWorld :=
  { okConvWorld with pagePdf := .error "render failed" }

/-- A world in which the browser close fails. -/
def closeFailConvWorld : ConvWorld :=
  { okConvWorld with browserClose := .error "close failed" }

/-- Witness for C6: concrete worlds failing at each extraction and render
stage — mammoth, launch, navigation, the two height evaluations, the PDF
generation, the browser close — all yield the wrapped, logged failure and
no result object. -/
theorem claim_C6_witness :
    failsWrapped sampleBuf "sample.docx" {} {} mamFailConvWorld "bad docx" ∧
    failsWrapped sampleBuf "sample.docx" {} {} launchFailConvWorld "spawn failure" ∧
    failsWrapped sampleBuf "sample.docx" {} {} gotoFailConvWorld "navigation failed" ∧
    failsWrapped sampleBuf "sample.docx" {} {} headerFailConvWorld "evaluate failed" ∧
    failsWrapped sampleBuf "sample.docx" {} {} footerFailConvWorld "evaluate failed" ∧
    failsWrapped sampleBuf "sample.docx" {} {} renderFailConvWorld "render failed" ∧
    failsWrapped sampleBuf "sample.docx" {} {} closeFailConvWorld "close failed" :=
  ⟨(claim_C6 sampleBuf "sample.docx" {} {} mamFailConvWorld "bad docx"
      "/tmp/doc-convert-abc123" { value := "<p>hi</p>", messages := [] }
      10).2.1 rfl rfl rfl,
   (claim_C6 sampleBuf "sample.docx" {} {} launchFailConvWorld "spawn failure"
      "/tmp/doc-convert-abc123" { value := "<p>hi</p>", messages := [] }
      10).2.2.1 rfl rfl rfl rfl rfl,
   (claim_C6 sampleBuf "sample.docx" {} {} gotoFailConvWorld "navigation failed"
      "/tmp/doc-convert-abc123" { value := "<p>hi</p>", messages := [] }
      10).2.2.2.1 rfl rfl rfl rfl rfl rfl,
   (claim_C6 sampleBuf "sample.docx" {} {} headerFailConvWorld "evaluate failed"
      "/tmp/doc-convert-abc123" { value := "<p>hi</p>", messages := [] }
      10).2.2.2.2.1 rfl rfl rfl rfl rfl rfl rfl rfl,
   (claim_C6 sampleBuf "sample.docx" {} {} footerFailConvWorld "evaluate failed"
      "/tmp/doc-convert-abc123" { value := "<p>hi</p>", messages := [] }
      10).2.2.2.2.2.1 rfl rfl rfl rfl rfl rfl rfl rfl rfl,
   (claim_C6 sampleBuf "sample.docx" {} {} renderFailConvWorld "render failed"
      "/tmp/doc-convert-abc123" { value := "<p>hi</p>", messages := [] }
      10).2.2.2.2.2.2.1 12 rfl rfl rfl rfl rfl rfl rfl rfl rfl,
   (claim_C6 sampleBuf "sample.docx" {} {} closeFailConvWorld "close failed"
      "/tmp/doc-convert-abc123" { value := "<p>hi</p>", messages := [] }
      10).2.2.2.2.2.2.2 12 rfl rfl rfl rfl rfl rfl rfl rfl rfl rfl⟩

/-- Counterexample to C1 as stated: with an invalid `returnType` the call
does fail with an error naming the bad value, but only after the whole
pipeline has run — the trace of the very same call contains the temp-file
write (and, further on, the render and the PDF read), contradicting the
claim that the error is raised before any file I/O occurs. -/
theorem claim_C1_counterexample :
    (convertDocxToPdf sampleBuf "sample.docx"
        { returnType := some "xyz", outputDir := some "/out" } {}
        okConvWorld).fst =
      .error "Failed to convert DOCX document to PDF: Invalid returnType specified: xyz" ∧
    Event.writeFile "/tmp/doc-convert-abc123/input.docx" ∈
      (convertDocxToPdf sampleBuf "sample.docx"
        { returnType := some "xyz", outputDir := some "/out" } {}
        okConvWorld).snd ∧
    Event.readFile "/out/sample.pdf" ∈
      (convertDocxToPdf sampleBuf "sample.docx"
        { returnType := some "xyz", outputDir := some "/out" } {}
        okConvWorld).snd :=
  ⟨rfl, by decide, by decide⟩

/-- Claim C1, amended: an invalid `returnType` always fails with an error
naming the bad value, but the error is raised only at the return dispatch,
after the full pipeline — the temp-file writes, the conversion, the render
and the PDF read have all happened by then — and it reaches the caller
wrapped in the generic conversion-failure message. -/
theorem claim_C1 :
    ∀ (buf : Buffer) (fn : String) (rt : String) (od : Option String)
      (fo : FormatOptions) (w : ConvWorld) (td : String)
      (mres : MammothResult) (hh fh : Nat) (bs : Buffer),
      w.tempDir = .ok td → w.writeDocx = .ok () → w.mammoth = .ok mres →
      w.writeHtml = .ok () → w.launch = .ok () → w.pageGoto = .ok () →
      w.headerHeight = .ok hh → w.footerHeight = .ok fh →
      w.pagePdf = .ok () → w.browserClose = .ok () → w.readPdf = .ok bs →
      rt ≠ "buffer" → rt ≠ "file" → rt ≠ "base64" →
      (convertDocxToPdf buf fn { returnType := some rt, outputDir := od }
          fo w).fst =
        .error ("Failed to convert DOCX document to PDF: " ++
          ("Invalid returnType specified: " ++ rt)) ∧
      Event.writeFile (pathJoin td "input.docx") ∈
        (convertDocxToPdf buf fn { returnType := some rt, outputDir := od }
          fo w).snd ∧
      Event.readFile (pathJoin (od.getD "/tmp") (replaceDocxSuffix fn)) ∈
        (convertDocxToPdf buf fn { returnType := some rt, outputDir := od }
          fo w).snd := by
  intro buf fn rt od fo w td mres hh fh bs h1 h2 h3 h4 h5 h6 h7 h8 h9 h10 h11
    hnb hnf hn64
  refine ⟨?_, ?_, ?_⟩ <;>
  cases hph : fo.preserveHeaders.getD true <;>
  cases hrm : w.rmTempDir <;>
  simp [convertDocxToPdf, convertBody, h1, h2, h3, h4, h5, h6, h7, h8, h9,
    h10, h11, hnb, hnf, hn64, hph, hrm]

/-- Witness for the amended C1 at a concrete invalid `returnType`. -/
theorem claim_C1_witness :
    (convertDocxToPdf sampleBuf "sample.docx"
        { returnType := some "blob", outputDir := some "/out" } {}
        okConvWorld).fst =
      .error ("Failed to convert DOCX document to PDF: " ++
        ("Invalid returnType specified: " ++ "blob")) ∧
    Event.writeFile (pathJoin "/tmp/doc-convert-abc123" "input.docx") ∈
      (convertDocxToPdf sampleBuf "sample.docx"
        { returnType := some "blob", outputDir := some "/out" } {}
        okConvWorld).snd ∧
    Event.readFile (pathJoin "/out" (replaceDocxSuffix "sample.docx")) ∈
      (convertDocxToPdf sampleBuf "sample.docx"
        { returnType := some "blob", outputDir := some "/out" } {}
        okConvWorld).snd :=
  claim_C1 sampleBuf "sample.docx" "blob" (some "/out") {} okConvWorld
    "/tmp/doc-convert-abc123" { value := "<p>hi</p>", messages := [] }
    10 12 pdfSample rfl rfl rfl rfl rfl rfl rfl rfl rfl rfl rfl
    (by decide) (by decide) (by decide)

/-- Counterexample to C2 as stated: a fully successful
`extractDocumentMetadata` call creates a temporary directory and never
removes it — the trace records the `mkdtemp` but no removal event and no
warning — and a `convertDocxToPdf` call that fails in the extraction
stage also leaves its temporary directory in place: its trace records the
`mkdtemp` but no removal of that directory before the wrapped error is
thrown. -/
theorem claim_C2_counterexample :
    (Event.mkdtemp "/tmp/doc-meta-x1" ∈
      (extractDocumentMetadata sampleBuf okMetaWorld).snd ∧
     Event.rmDir "/tmp/doc-meta-x1" ∉
      (extractDocumentMetadata sampleBuf okMetaWorld).snd ∧
     Event.logWarn ∉ (extractDocumentMetadata sampleBuf okMetaWorld).snd) ∧
    (Event.mkdtemp "/tmp/doc-convert-abc123" ∈
      (convertDocxToPdf sampleBuf "sample.docx" {} {} mamFailConvWorld).snd ∧
     Event.rmDir "/tmp/doc-convert-abc123" ∉
      (convertDocxToPdf sampleBuf "sample.docx" {} {} mamFailConvWorld).snd ∧
     (convertDocxToPdf sampleBuf "sample.docx" {} {} mamFailConvWorld).fst =
       .error "Failed to convert DOCX document to PDF: bad docx") :=
  ⟨⟨by decide, by decide, by decide⟩, ⟨by decide, by decide, rfl⟩⟩

set_option maxHeartbeats 1600000 in
/-- Claim C2, amended: the temporary directory of `convertDocxToPdf` is
removed only on runs that reach the cleanup step — a removal event occurs
only if the directory was created and every stage through the browser
close and the removal itself succeeded (first conjunct, so a run failing
before cleanup never removes it); on such runs the removal is attempted,
and a removal failure is logged as a warning, leaves no removal event,
and never changes the outcome of the call (second conjunct).
`extractDocumentMetadata` never removes its temporary directory at all
(third conjunct). -/
theorem claim_C2 :
    ∀ (buf : Buffer) (fn : String) (opts : Options) (fo : FormatOptions)
      (w : ConvWorld),
      (∀ d, Event.rmDir d ∈ (convertDocxToPdf buf fn opts fo w).snd →
        w.tempDir = .ok d ∧ w.writeDocx = .ok () ∧
        (∃ mres, w.mammoth = .ok mres) ∧ w.writeHtml = .ok () ∧
        w.launch = .ok () ∧ w.pageGoto = .ok () ∧
        (fo.preserveHeaders.getD true = true →
          (∃ hh, w.headerHeight = .ok hh) ∧ (∃ fh, w.footerHeight = .ok fh)) ∧
        w.pagePdf = .ok () ∧ w.browserClose = .ok () ∧
        w.rmTempDir = .ok ()) ∧
      (∀ (td : String) (mres : MammothResult) (hh fh : Nat),
        w.tempDir = .ok td → w.writeDocx = .ok () → w.mammoth = .ok mres →
        w.writeHtml = .ok () → w.launch = .ok () → w.pageGoto = .ok () →
        w.headerHeight = .ok hh → w.footerHeight = .ok fh →
        w.pagePdf = .ok () → w.browserClose = .ok () →
        ((w.rmTempDir = .ok () →
          Event.rmDir td ∈ (convertDocxToPdf buf fn opts fo w).snd) ∧
         (∀ e, w.rmTempDir = .error e →
          Event.logWarn ∈ (convertDocxToPdf buf fn opts fo w).snd ∧
          Event.rmDir td ∉ (convertDocxToPdf buf fn opts fo w).snd ∧
          (convertDocxToPdf buf fn opts fo w).fst =
            (convertDocxToPdf buf fn opts fo
              { w with rmTempDir := .ok () }).fst))) ∧
      (∀ (mbuf : Buffer) (mw : MetaWorld) (d : String),
        Event.rmDir d ∉ (extractDocumentMetadata mbuf mw).snd) := by
  intro buf fn opts fo w
  refine ⟨?_, ?_, ?_⟩
  · intro d hmem
    rcases h1 : w.tempDir with e | td
    · simp [convertDocxToPdf, convertBody, h1] at hmem
    rcases h2 : w.writeDocx with e | u2
    · simp [convertDocxToPdf, convertBody, h1, h2] at hmem
    rcases h3 : w.mammoth with e | mres
    · simp [convertDocxToPdf, convertBody, h1, h2, h3] at hmem
    rcases h4 : w.writeHtml with e | u4
    · simp [convertDocxToPdf, convertBody, h1, h2, h3, h4] at hmem
    rcases h5 : w.launch with e | u5
    · simp [convertDocxToPdf, convertBody, h1, h2, h3, h4, h5] at hmem
    rcases h6 : w.pageGoto with e | u6
    · simp [convertDocxToPdf, convertBody, h1, h2, h3, h4, h5, h6] at hmem
    cases hph : fo.preserveHeaders.getD true
    · rcases h9 : w.pagePdf with e | u9
      · simp [convertDocxToPdf, convertBody, h1, h2, h3, h4, h5, h6, hph,
          h9] at hmem
      rcases h10 : w.browserClose with e | u10
      · simp [convertDocxToPdf, convertBody, h1, h2, h3, h4, h5, h6, hph,
          h9, h10] at hmem
      rcases hrm : w.rmTempDir with e | u11 <;>
      rcases hrp : w.readPdf with e2 | bs <;>
      rcases eq_or_ne (opts.returnType.getD "buffer") "buffer" with hb | hb <;>
      rcases eq_or_ne (opts.returnType.getD "buffer") "file" with hf | hf <;>
      rcases eq_or_ne (opts.returnType.getD "buffer") "base64" with h64 | h64 <;>
      simp [convertDocxToPdf, convertBody, h1, h2, h3, h4, h5, h6, hph, h9,
        h10, hrm, hrp, hb, hf, h64] at hmem <;>
      (subst hmem
       exact ⟨rfl, rfl, ⟨mres, rfl⟩, rfl, rfl, rfl,
         fun hcontr => absurd hcontr (by decide), rfl, rfl, rfl⟩)
    · rcases h7 : w.headerHeight with e | hh
      · simp [convertDocxToPdf, convertBody, h1, h2, h3, h4, h5, h6, hph,
          h7] at hmem
      rcases h8 : w.footerHeight with e | fh
      · simp [convertDocxToPdf, convertBody, h1, h2, h3, h4, h5, h6, hph,
          h7, h8] at hmem
      rcases h9 : w.pagePdf with e | u9
      · simp [convertDocxToPdf, convertBody, h1, h2, h3, h4, h5, h6, hph,
          h7, h8, h9] at hmem
      rcases h10 : w.browserClose with e | u10
      · simp [convertDocxToPdf, convertBody, h1, h2, h3, h4, h5, h6, hph,
          h7, h8, h9, h10] at hmem
      rcases hrm : w.rmTempDir with e | u11 <;>
      rcases hrp : w.readPdf with e2 | bs <;>
      rcases eq_or_ne (opts.returnType.getD "buffer") "buffer" with hb | hb <;>
      rcases eq_or_ne (opts.returnType.getD "buffer") "file" with hf | hf <;>
      rcases eq_or_ne (opts.returnType.getD "buffer") "base64" with h64 | h64 <;>
      simp [convertDocxToPdf, convertBody, h1, h2, h3, h4, h5, h6, hph, h7,
        h8, h9, h10, hrm, hrp, hb, hf, h64] at hmem <;>
      (subst hmem
       exact ⟨rfl, rfl, ⟨mres, rfl⟩, rfl, rfl, rfl,
         fun _ => ⟨⟨hh, rfl⟩, ⟨fh, rfl⟩⟩, rfl, rfl, rfl⟩)
  · intro td mres hh fh h1 h2 h3 h4 h5 h6 h7 h8 h9 h10
    refine ⟨?_, ?_⟩
    · intro hrm
      rcases eq_or_ne (opts.returnType.getD "buffer") "buffer" with hb | hb <;>
      rcases eq_or_ne (opts.returnType.getD "buffer") "file" with hf | hf <;>
      rcases eq_or_ne (opts.returnType.getD "buffer") "base64" with h64 | h64 <;>
      cases hph : fo.preserveHeaders.getD true <;>
      cases hrp : w.readPdf <;>
      simp [convertDocxToPdf, convertBody, h1, h2, h3, h4, h5, h6, h7, h8, h9,
        h10, hrm, hb, hf, h64, hph, hrp]
    · intro e hrm
      refine ⟨?_, ?_, ?_⟩ <;>
      rcases eq_or_ne (opts.returnType.getD "buffer") "buffer" with hb | hb <;>
      rcases eq_or_ne (opts.returnType.getD "buffer") "file" with hf | hf <;>
      rcases eq_or_ne (opts.returnType.getD "buffer") "base64" with h64 | h64 <;>
      cases hph : fo.preserveHeaders.getD true <;>
      cases hrp : w.readPdf <;>
      simp [convertDocxToPdf, convertBody, h1, h2, h3, h4, h5, h6, h7, h8, h9,
        h10, hrm, hb, hf, h64, hph, hrp]
  · intro mbuf mw d
    rcases hmt : mw.tempDir with e | mtd
    · simp [extractDocumentMetadata, metaBody, hmt]
    · rcases hmw : mw.write with e | u
      · simp [extractDocumentMetadata, metaBody, hmt, hmw]
      · rcases hmx : mw.extractRawText with e | res <;>
        simp [extractDocumentMetadata, metaBody, hmt, hmw, hmx]

/-- Witness for the amended C2: the removal event of a fully successful
run certifies that every stage succeeded; the cleanup happens on such a
run; a failing removal is logged, records no removal, and leaves the
result unchanged; and a metadata call never removes its directory. -/
theorem claim_C2_witness :
    (okConvWorld.tempDir = .ok "/tmp/doc-convert-abc123" ∧
     okConvWorld.writeDocx = .ok () ∧
     (∃ mres, okConvWorld.mammoth = .ok mres) ∧
     okConvWorld.writeHtml = .ok () ∧ okConvWorld.launch = .ok () ∧
     okConvWorld.pageGoto = .ok () ∧
     (({} : FormatOptions).preserveHeaders.getD true = true →
       (∃ hh, okConvWorld.headerHeight = .ok hh) ∧
       (∃ fh, okConvWorld.footerHeight = .ok fh)) ∧
     okConvWorld.pagePdf = .ok () ∧ okConvWorld.browserClose = .ok () ∧
     okConvWorld.rmTempDir = .ok ()) ∧
    (Event.rmDir "/tmp/doc-convert-abc123" ∈
      (convertDocxToPdf sampleBuf "sample.docx" {} {} okConvWorld).snd) ∧
    (Event.logWarn ∈ (convertDocxToPdf sampleBuf "sample.docx" {} {}
      { okConvWorld with rmTempDir := .error "EBUSY" }).snd ∧
     Event.rmDir "/tmp/doc-convert-abc123" ∉
      (convertDocxToPdf sampleBuf "sample.docx" {} {}
        { okConvWorld with rmTempDir := .error "EBUSY" }).snd ∧
     (convertDocxToPdf sampleBuf "sample.docx" {} {}
        { okConvWorld with rmTempDir := .error "EBUSY" }).fst =
       (convertDocxToPdf sampleBuf "sample.docx" {} {}
         { { okConvWorld with rmTempDir := .error "EBUSY" } with
           rmTempDir := .ok () }).fst) ∧
    Event.rmDir "/tmp/doc-meta-x1" ∉
      (extractDocumentMetadata sampleBuf okMetaWorld).snd :=
  ⟨(claim_C2 sampleBuf "sample.docx" {} {} okConvWorld).1
      "/tmp/doc-convert-abc123" (by decide),
   ((claim_C2 sampleBuf "sample.docx" {} {} okConvWorld).2.1
      "/tmp/doc-convert-abc123" { value := "<p>hi</p>", messages := [] }
      10 12 rfl rfl rfl rfl rfl rfl rfl rfl rfl rfl).1 rfl,
   ((claim_C2 sampleBuf "sample.docx" {} {}
      { okConvWorld with rmTempDir := .error "EBUSY" }).2.1
      "/tmp/doc-convert-abc123" { value := "<p>hi</p>", messages := [] }
      10 12 rfl rfl rfl rfl rfl rfl rfl rfl rfl rfl).2 "EBUSY" rfl,
   (claim_C2 sampleBuf "sample.docx" {} {} okConvWorld).2.2 sampleBuf
     okMetaWorld "/tmp/doc-meta-x1"⟩

/-- Counterexample to C8 as stated: for an `originalFilename` that does
not end in `.docx`, a fully successful buffer-mode conversion returns a
filename that does not end in `.pdf` (here `report.txt` is returned
unchanged), so the filename guarantee does not hold for every
`originalFilename`. -/
theorem claim_C8_counterexample :
    (convertDocxToPdf sampleBuf "report.txt"
        { returnType := some "buffer", outputDir := some "/out" } {}
        okConvWorld).fst =
      .ok { buffer := some pdfSample, base64 := none, filename := "report.txt" } ∧
    strEndsWith "report.txt" ".pdf" = false :=
  ⟨rfl, by decide⟩

/-- Claim C8, amended: for a valid DOCX buffer (a world in which every
stage succeeds and the renderer produces a non-empty PDF) and
a `returnType` of `buffer`, the result carries the non-empty byte buffer, and
its filename ends in `.pdf` whenever the original filename ends in `.docx`
(case-insensitively) and contains no path separator; other original
filenames are kept unchanged, extension included. -/
theorem claim_C8 :
    ∀ (buf : Buffer) (fn : String) (od : Option String)
      (fo : FormatOptions) (w : ConvWorld) (td : String)
      (mres : MammothResult) (hh fh : Nat) (bs : Buffer),
      w.tempDir = .ok td → w.writeDocx = .ok () → w.mammoth = .ok mres →
      w.writeHtml = .ok () → w.launch = .ok () → w.pageGoto = .ok () →
      w.headerHeight = .ok hh → w.footerHeight = .ok fh →
      w.pagePdf = .ok () → w.browserClose = .ok () → w.readPdf = .ok bs →
      bs ≠ [] →
      ∃ r, (convertDocxToPdf buf fn { returnType := some "buffer", outputDir := od }
          fo w).fst = .ok r ∧
        r.buffer = some bs ∧ bs ≠ [] ∧
        ('/' ∉ fn.data → hasDocxSuffixCI fn = true →
          strEndsWith r.filename ".pdf" = true) ∧
        ('/' ∉ fn.data → hasDocxSuffixCI fn = false → r.filename = fn) := by
  intro buf fn od fo w td mres hh fh bs h1 h2 h3 h4 h5 h6 h7 h8 h9 h10 h11 hbs
  have heq : (convertDocxToPdf buf fn { returnType := some "buffer", outputDir := od }
      fo w).fst = .ok { buffer := some bs, base64 := none, filename := pathBasename (pathJoin (od.getD "/tmp") (replaceDocxSuffix fn)) } := by
    cases hph : fo.preserveHeaders.getD true <;>
    cases hrm : w.rmTempDir <;>
    simp [convertDocxToPdf, convertBody, h1, h2, h3, h4, h5, h6, h7, h8, h9,
      h10, h11, hph, hrm]
  refine ⟨_, heq, rfl, hbs, ?_, ?_⟩
  · intro hslash hdocx
    obtain ⟨stem, hstem⟩ := (hasDocxSuffixCI_iff fn).mp hdocx
    have hrepl := replaceDocxSuffix_of_docx fn stem hstem
    have hnos : '/' ∉ (replaceDocxSuffix fn).data :=
      replaceDocxSuffix_no_slash fn hslash
    simp only [pathBasename_pathJoin _ _ hnos]
    rw [hrepl]
    exact strEndsWith_append _ _
  · intro hslash hdocx
    have hrepl : replaceDocxSuffix fn = fn := by
      unfold replaceDocxSuffix
      rw [hdocx]
      simp
    have hnos : '/' ∉ (replaceDocxSuffix fn).data := by
      rw [hrepl]
      exact hslash
    show pathBasename (pathJoin (od.getD "/tmp") (replaceDocxSuffix fn)) = fn
    rw [pathBasename_pathJoin _ _ hnos]
    exact hrepl

/-- Witness for the amended C8 at a `.docx` filename in a fully successful
world. -/
theorem claim_C8_witness :
    ∃ r, (convertDocxToPdf sampleBuf "sample.docx"
        { returnType := some "buffer", outputDir := some "/out" } {}
        okConvWorld).fst = .ok r ∧
      r.buffer = some pdfSample ∧ pdfSample ≠ [] ∧
      ('/' ∉ ("sample.docx" : String).data → hasDocxSuffixCI "sample.docx" = true →
        strEndsWith r.filename ".pdf" = true) ∧
      ('/' ∉ ("sample.docx" : String).data → hasDocxSuffixCI "sample.docx" = false →
        r.filename = "sample.docx") :=
  claim_C8 sampleBuf "sample.docx" (some "/out") {} okConvWorld
    "/tmp/doc-convert-abc123" { value := "<p>hi</p>", messages := [] }
    10 12 pdfSample rfl rfl rfl rfl rfl rfl rfl rfl rfl rfl rfl (by decide)

/-- Claim C10: the output path is `outputDir` joined with the original
filename in which only a trailing `.docx` (matched case-insensitively) is
replaced by `.pdf`: a name whose lower-casing does not end in `.docx` is
kept unchanged, a name whose lower-casing is `stem ++ ".docx"` keeps its
first `stem.length` characters and gains `.pdf`; and a successful
file-mode conversion returns exactly that joined path. -/
theorem claim_C10 :
    (∀ name : String,
      (¬ ∃ stem, name.data.map Char.toLower = stem ++ docxSuffix) →
        replaceDocxSuffix name = name) ∧
    (∀ (name : String) (stem : List Char),
      name.data.map Char.toLower = stem ++ docxSuffix →
        replaceDocxSuffix name = String.mk (name.data.take stem.length) ++ ".pdf") ∧
    (∀ (buf : Buffer) (fn : String) (od : Option String)
      (fo : FormatOptions) (w : ConvWorld) (td : String)
      (mres : MammothResult) (hh fh : Nat) (bs : Buffer),
      w.tempDir = .ok td → w.writeDocx = .ok () → w.mammoth = .ok mres →
      w.writeHtml = .ok () → w.launch = .ok () → w.pageGoto = .ok () →
      w.headerHeight = .ok hh → w.footerHeight = .ok fh →
      w.pagePdf = .ok () → w.browserClose = .ok () → w.readPdf = .ok bs →
      (convertDocxToPdf buf fn { returnType := some "file", outputDir := od }
          fo w).fst =
        .ok { buffer := none, base64 := none, filename := pathJoin (od.getD "/tmp") (replaceDocxSuffix fn) }) := by
  refine ⟨replaceDocxSuffix_of_not_docx, replaceDocxSuffix_of_docx, ?_⟩
  intro buf fn od fo w td mres hh fh bs h1 h2 h3 h4 h5 h6 h7 h8 h9 h10 h11
  cases hph : fo.preserveHeaders.getD true <;>
  cases hrm : w.rmTempDir <;>
  simp [convertDocxToPdf, convertBody, h1, h2, h3, h4, h5, h6, h7, h8, h9,
    h10, h11, hph, hrm]

/-- Witness for C10: a non-`.docx` name is kept, an upper-case `.DOCX` name
is rewritten, and a concrete file-mode run returns the joined path. -/
theorem claim_C10_witness :
    replaceDocxSuffix "report.txt" = "report.txt" ∧
    replaceDocxSuffix "REPORT.DOCX" =
      String.mk (("REPORT.DOCX" : String).data.take 6) ++ ".pdf" ∧
    (convertDocxToPdf sampleBuf "sample.docx"
        { returnType := some "file", outputDir := some "/out" } {}
        okConvWorld).fst =
      .ok { buffer := none, base64 := none, filename := pathJoin "/out" (replaceDocxSuffix "sample.docx") } :=
  ⟨claim_C10.1 "report.txt"
     (by intro h
         exact absurd ((hasDocxSuffixCI_iff "report.txt").mpr h) (by decide)),
   claim_C10.2.1 "REPORT.DOCX" ['r', 'e', 'p', 'o', 'r', 't'] (by decide),
   claim_C10.2.2 sampleBuf "sample.docx" (some "/out") {} okConvWorld
     "/tmp/doc-convert-abc123" { value := "<p>hi</p>", messages := [] }
     10 12 pdfSample rfl rfl rfl rfl rfl rfl rfl rfl rfl rfl rfl⟩

end DocxToPdf
